import Mathlib

/-!
Verification of the agro-GPT orchestration core (backend/agent.py).

This file gives a shallow embedding of the pure control logic of the
backend agent: the API-key rotation manager (`APIKeyRotator`), the
tool-decision parsing of the agent LLM (`decide_tools` and its keyword
fallback), the knowledge-base search post-processing (`RAGTool.search`),
the market-price lookup (`MarketPriceTool.get_price`), the mock water and
pest tools, and the orchestrator pipeline (`AgriAgent.query`).

Remote collaborators (the HTTP generation API, the FAISS index call, the
sentence embedding model, the pandas row rendering, the JSON parser) are
modelled as explicit outcome parameters: the embedding covers exactly the
branching that the Python code performs on their results.  Wall-clock time
is passed explicitly as an integer number of microseconds (the granularity
of Python's `datetime`), and floating point values coming back from the
index are modelled as exact rationals, which is faithful for the concrete
values the theorems below evaluate.
-/

/-- Python `needle in hay` substring test on strings. -/
def strContains (hay needle : String) : Bool :=
  decide (needle.toList <:+: hay.toList)

/-- Python `s.lower()`, modelled character-wise (`Char.toLower` agrees
with Python on the ASCII data this code handles). -/
def pyLower (s : String) : String := String.mk (s.toList.map Char.toLower)

/-- Python `sep.join(parts)`. -/
def pyJoin (sep : String) : List String → String
  | [] => ""
  | [a] => a
  | a :: b :: rest => a ++ sep ++ pyJoin sep (b :: rest)

/-- Python `max(scores) if scores else 0.0`, used by `RAGTool.search`. -/
def pyMax : List ℚ → ℚ
  | [] => 0
  | x :: xs => xs.foldl max x

/-- Python dict assignment `d[k] = v` on an insertion-ordered association
list: replaces the value when the key is present, appends otherwise. -/
def dictUpsert {α : Type} (k : String) (v : α) (d : List (String × α)) :
    List (String × α) :=
  if (d.lookup k).isSome then
    d.map fun kv => if kv.1 = k then (k, v) else kv
  else d ++ [(k, v)]

/-- Minimal JSON value model, enough for the truthiness tests the code
performs on parsed tool-decision objects. -/
inductive Json where
  | bool (b : Bool)
  | str (s : String)
  | num (n : Int)
  | null
deriving Repr, DecidableEq

/-- Python truthiness of a JSON value. -/
def jsonTruthy : Json → Bool
  | .bool b => b
  | .str s => !s.isEmpty
  | .num n => n != 0
  | .null => false

/- ===================================================================
   APIKeyRotator  (backend/agent.py, class APIKeyRotator)
   =================================================================== -/

/-- State of `APIKeyRotator`: the ordered key list, the rotation cursor
`current_index`, the configured cooldown in minutes, and the
`failed_keys` dict mapping a key to the `datetime.now()` (in microseconds)
at which it was marked failed. -/
structure APIKeyRotator where
  api_keys : List String
  current_index : Nat
  cooldown_minutes : Nat
  failed_keys : List (String × Int)
deriving Repr, DecidableEq

/-- `self.rate_limit_codes = [429, 402, 503]`. -/
def rate_limit_codes : List Int := [429, 402, 503]

/-- `timedelta(minutes=self.cooldown_minutes)` in microseconds. -/
def cooldownDelta (r : APIKeyRotator) : Int :=
  (r.cooldown_minutes : Int) * 60000000

/-- The cooldown clean-up at the top of `get_next_key`: delete every entry
with `now - fail_time > timedelta(minutes=cooldown_minutes)`, i.e. keep the
entries with `now - fail_time ≤ delta`. -/
def cleanup (now : Int) (r : APIKeyRotator) : List (String × Int) :=
  r.failed_keys.filter fun kt => decide (now - kt.2 ≤ cooldownDelta r)

/-- The `while attempts < max_attempts` search loop of `get_next_key`.
`rotLoop keys failed idx fuel = (result, new_index, examined)` where
`examined` counts how many candidate slots were looked at.  Per attempt the
code reads `keys[idx]`, advances the cursor to `(idx + 1) % len(keys)`
unconditionally, and returns the key iff it is not in `failed`. -/
def rotLoop (keys : List String) (failed : List (String × Int)) :
    Nat → Nat → Option String × Nat × Nat
  | idx, 0 => (none, idx, 0)
  | idx, fuel + 1 =>
    let key := keys.getD idx ""
    let idx2 := (idx + 1) % keys.length
    if (failed.lookup key).isNone then (some key, idx2, 1)
    else
      let r := rotLoop keys failed idx2 fuel
      (r.1, r.2.1, r.2.2 + 1)

/-- `APIKeyRotator.get_next_key`: clean up expired cooldowns, then search
for at most `len(api_keys)` attempts; returns the found key (or `none`)
together with the updated rotator state. -/
def get_next_key (now : Int) (r : APIKeyRotator) : Option String × APIKeyRotator :=
  let failed2 := cleanup now r
  let s := rotLoop r.api_keys failed2 r.current_index r.api_keys.length
  (s.1, { r with failed_keys := failed2, current_index := s.2.1 })

/-- `APIKeyRotator.mark_key_failed`: record the failure time iff the error
code is one of the recognized rate-limit codes (`None` is never in the
list, matching the Python default argument). -/
def mark_key_failed (now : Int) (key : String) (error_code : Option Int)
    (r : APIKeyRotator) : APIKeyRotator :=
  match error_code with
  | some c =>
    if rate_limit_codes.contains c then
      { r with failed_keys := dictUpsert key now r.failed_keys }
    else r
  | none => r

/-- `n` successive calls to `get_next_key` at a fixed wall-clock time,
collecting the returned keys. -/
def nextCalls (now : Int) : Nat → APIKeyRotator → List (Option String) × APIKeyRotator
  | 0, r => ([], r)
  | n + 1, r =>
    let c := get_next_key now r
    let rest := nextCalls now n c.2
    (c.1 :: rest.1, rest.2)

/- ===================================================================
   AgentLLM.decide_tools and its keyword fallback
   (backend/agent.py, class AgentLLM)
   =================================================================== -/

/-- The opening brace character, written numerically. -/
def lbrace : Char := Char.ofNat 123

/-- The closing brace character, written numerically. -/
def rbrace : Char := Char.ofNat 125

/-- Leftmost match of the Python regex used by `decide_tools` (an opening
brace, one or more non-closing-brace characters, a closing brace): scan
positions left to right; at each position the greedy character class takes
the maximal run of non-closing-brace characters and the match succeeds iff
that run is nonempty and is followed by a closing brace. -/
def jsonMatchCore : List Char → Option (List Char)
  | [] => none
  | c :: cs =>
    let body := cs.takeWhile fun x => x ≠ rbrace
    if c = lbrace ∧ body ≠ [] ∧ (cs.drop body.length).head? = some rbrace then
      some (c :: (body ++ [rbrace]))
    else jsonMatchCore cs

/-- `re.search(r'\x7b[^\x7d]+\x7d', response, re.DOTALL)` followed by
`.group()`. -/
def findJsonMatch (s : String) : Option String :=
  (jsonMatchCore s.toList).map fun cs => String.mk cs

/-- The fixed key set the decision is projected onto. -/
def allowed_keys : List String := ["rag", "weather", "market", "water", "pest"]

/-- `AgentLLM._fallback_detection`: keyword-based tool detection over the
lowercased question; `rag` is unconditionally true. -/
def fallback_detection (question : String) : List (String × Json) :=
  let q := pyLower question
  [("rag", Json.bool true),
   ("weather", Json.bool
     (["weather", "temperature", "rain", "climate", "humidity", "wind"].any
       fun w => strContains q w)),
   ("market", Json.bool
     (["price", "market", "cost", "rate", "selling", "commodity"].any
       fun w => strContains q w)),
   ("water", Json.bool
     (["water", "irrigation", "moisture", "rainfall", "groundwater"].any
       fun w => strContains q w)),
   ("pest", Json.bool
     (["pest", "disease", "insect", "fungal", "virus", "infection"].any
       fun w => strContains q w))]

/-- `AgentLLM.decide_tools`, with the two remote collaborators passed as
explicit outcomes: `gen` is the result of `self.generate(...)` (`error` =
the call raised) and `parse` is `json.loads` (`error` = unparseable).  Any
failure on the path — generation error, no regex match (the `ValueError`
raise), or parse error — is caught and replaced by the keyword fallback.
On success the parsed object is projected onto `allowed_keys` (missing
keys default to `False`) and `final_decisions['rag'] = True` is forced. -/
def decide_tools (parse : String → Except Unit (List (String × Json)))
    (question : String) (gen : Except Unit String) : List (String × Json) :=
  match gen with
  | .error _ => fallback_detection question
  | .ok response =>
    match findJsonMatch response with
    | none => fallback_detection question
    | some json_string =>
      match parse json_string.trim with
      | .error _ => fallback_detection question
      | .ok decisions =>
        let final_decisions :=
          allowed_keys.map fun k => (k, (decisions.lookup k).getD (Json.bool false))
        dictUpsert "rag" (Json.bool true) final_decisions

/- ===================================================================
   RAGTool.search  (backend/agent.py, class RAGTool)
   =================================================================== -/

/-- One entry of the parallel metadata store (`self.metadata[idx]`). -/
structure RagMeta where
  source : String
  type : String
deriving Repr, DecidableEq

/-- One accepted hit as appended to `results`. -/
structure RagHit where
  text : String
  source : String
  type : String
deriving Repr, DecidableEq

/-- The result dictionary of `RAGTool.search`.  The failure branch leaves
`results`/`scores`/`top_score` at their defaults because the Python dict
simply omits those keys there. -/
structure RagOutput where
  success : Bool
  results : List RagHit := []
  scores : List ℚ := []
  is_relevant : Bool := false
  top_score : ℚ := 0
  error : Option String := none
deriving Repr, DecidableEq

/-- `similarities = 1 - (distances[0] ** 2) / 2`: the per-hit conversion
the code applies to each value returned by `self.index.search`. -/
def ragSimilarity (d : ℚ) : ℚ := 1 - d * d / 2

/-- The acceptance filter of the search loop:
`score >= threshold and 0 <= idx < len(self.documents)`. -/
def ragAccept (docs : List String) (threshold : ℚ) (p : Int × ℚ) : Bool :=
  decide (threshold ≤ p.2) && decide (0 ≤ p.1) && decide (p.1 < (docs.length : Int))

/-- The dictionary built for an accepted position: `documents[idx]`,
`metadata[idx]['source']`, `metadata[idx]['type']`. -/
def ragDeref (docs : List String) (meta : List RagMeta) (p : Int × ℚ) : RagHit :=
  { text := docs.getD p.1.toNat ""
    source := (meta.getD p.1.toNat ⟨"", ""⟩).source
    type := (meta.getD p.1.toNat ⟨"", ""⟩).type }

/-- The `for idx, score in zip(indices[0], similarities)` loop.  An
accepted position is dereferenced in both parallel stores; a position that
is in range for `documents` but out of range for `metadata` raises
`IndexError`, which aborts the whole loop (the surrounding `except`
converts it into a failure result). -/
def ragLoop (docs : List String) (meta : List RagMeta) (threshold : ℚ) :
    List (Int × ℚ) → Except String (List RagHit × List ℚ)
  | [] => .ok ([], [])
  | (idx, score) :: rest =>
    if ragAccept docs threshold (idx, score) then
      match meta.get? idx.toNat with
      | none => .error "list index out of range"
      | some m =>
        match ragLoop docs meta threshold rest with
        | .error e => .error e
        | .ok (rs, ss) =>
          .ok ({ text := docs.getD idx.toNat "", source := m.source, type := m.type } :: rs,
               score :: ss)
    else ragLoop docs meta threshold rest

namespace RAGTool

/-- `RAGTool.search` after the remote embedding/index call, whose outcome
is passed explicitly: `error` covers an exception raised by
`model.encode`/`index.search`, `ok (distances, indices)` is the pair of
parallel arrays `distances[0]` and `indices[0]`. -/
def search (documents : List String) (metadata : List RagMeta) (threshold : ℚ)
    (outcome : Except String (List ℚ × List Int)) : RagOutput :=
  match outcome with
  | .error e => { success := false, error := some e, is_relevant := false }
  | .ok (distances, indices) =>
    let similarities := distances.map ragSimilarity
    match ragLoop documents metadata threshold (indices.zip similarities) with
    | .error e => { success := false, error := some e, is_relevant := false }
    | .ok (results, scores) =>
      { success := true
        results := results
        scores := scores
        is_relevant := decide (0 < results.length) && decide (threshold ≤ pyMax scores)
        top_score := pyMax scores }

end RAGTool

/- ===================================================================
   WeatherTool  (backend/agent.py, class WeatherTool)
   =================================================================== -/

/-- Outcome of the remote weather request as the code consumes it: either
the extracted numeric fields of a successful JSON response, or the string
rendering of the raised exception. -/
inductive WeatherOutcome where
  | ok (temp : ℚ) (humidity : ℚ) (description : String) (wind : ℚ)
  | err (msg : String)

/-- The fields of the dictionary returned by `get_weather` that the
orchestrator reads (`success` and `context_summary` are present in both
branches of the Python code). -/
structure WeatherData where
  success : Bool
  city : String
  context_summary : String
  error : Option String := none
deriving Repr, DecidableEq

namespace WeatherTool

/-- The error-message selection of the `except` branch of `get_weather`. -/
def weatherErrMsg (city msg : String) : String :=
  if strContains msg "401" then "Invalid OpenWeatherMap API key."
  else if strContains msg "404" then "City \x27" ++ city ++ "\x27 not found."
  else msg

/-- `WeatherTool.get_weather` over an explicit request outcome. -/
def get_weather (city : String) (outcome : WeatherOutcome) : WeatherData :=
  match outcome with
  | .ok temp humidity description wind =>
    { success := true
      city := city
      context_summary :=
        "Live weather data for " ++ city ++ ", India: Current conditions are \x27" ++
        description ++ "\x27. Temperature is " ++ toString temp ++
        "°C, and humidity is " ++ toString humidity ++ "%. Wind speed is " ++
        toString wind ++ " m/s." }
  | .err msg =>
    let error_msg := weatherErrMsg city msg
    { success := false
      city := city
      error := some error_msg
      context_summary :=
        "Weather data for " ++ city ++ " is unavailable. Error: " ++ error_msg }

end WeatherTool

/- ===================================================================
   MarketPriceTool.get_price  (backend/agent.py, class MarketPriceTool)
   =================================================================== -/

/-- One row of the loaded price table after the load-time renaming onto
the canonical schema. -/
structure PriceRow where
  Date : String
  Commodity : String
  Market : String
  Variety : String
  Min_Price : String
  Max_Price : String
deriving Repr, DecidableEq

/-- The fields of the dictionary returned by `get_price`; keys that a
branch omits are modelled by `none` / default values. -/
structure MarketData where
  success : Bool
  error : Option String := none
  commodity : Option String := none
  records_found : Option Nat := none
  prices : List PriceRow := []
  context_summary : String
deriving Repr, DecidableEq

namespace MarketPriceTool

/-- The bullet line rendered for one of the up-to-five top records. -/
def priceLine (record : PriceRow) : String :=
  "• " ++ record.Market ++ " (" ++ record.Date ++ "): Variety: " ++
  record.Variety ++ ". Price Range: ₹" ++ record.Min_Price ++ " - ₹" ++
  record.Max_Price ++ "."

/-- `MarketPriceTool.get_price`.  `render` is the pandas rendering
`str(row)` of an entire row (an external library behaviour), `prices_df`
is `None` when the CSV failed to load.  A row matches iff the lowercased
commodity is a substring of the lowercased row rendering. -/
def get_price (render : PriceRow → String) (prices_df : Option (List PriceRow))
    (commodity : String) : MarketData :=
  match prices_df with
  | none =>
    { success := false
      error := some "Market price data not available. Check file path."
      context_summary := "Market price data is currently unavailable." }
  | some df =>
    let commodity_lower := pyLower commodity
    let matchedRows := df.filter fun row => strContains (pyLower (render row)) commodity_lower
    if matchedRows.length = 0 then
      { success := false
        error := some ("No price data found for " ++ commodity)
        commodity := some commodity
        context_summary := "No recent market price data found for " ++ commodity ++ "." }
    else
      let top_records := matchedRows.take 5
      let summary_lines :=
        ("Found " ++ toString matchedRows.length ++ " market price records for " ++
          commodity.toUpper ++ ":") :: top_records.map priceLine
      { success := true
        commodity := some commodity
        records_found := some matchedRows.length
        prices := top_records
        context_summary := pyJoin "\n" summary_lines }

end MarketPriceTool

/- ===================================================================
   WaterDataTool and PestAdvisoryTool  (backend/agent.py)
   =================================================================== -/

/-- The fields of a region entry of `WaterDataTool.data`. -/
structure WaterRegion where
  avg_rainfall_mm : Nat
  groundwater_level : String
  soil_moisture : String
  irrigation_advice : String
deriving Repr, DecidableEq

/-- The single `'telangana'` entry of the mock table. -/
def telanganaWater : WaterRegion :=
  { avg_rainfall_mm := 850
    groundwater_level := "Moderate (requires monitoring)"
    soil_moisture := "Medium (adequate for Kharif sowing)"
    irrigation_advice :=
      "Use drip or micro-sprinkler irrigation systems for water conservation" }

/-- `self.data` of `WaterDataTool`. -/
def waterRegions : List (String × WaterRegion) := [("telangana", telanganaWater)]

/-- The dictionary returned by `get_water_info`. -/
structure WaterData where
  success : Bool
  region : String
  avg_rainfall_mm : Nat
  context_summary : String
deriving Repr, DecidableEq

namespace WaterDataTool

/-- `WaterDataTool.get_water_info`: look the lowercased region up in the
mock table, falling back to the `'telangana'` entry. -/
def get_water_info (region : String) : WaterData :=
  let region_data := (waterRegions.lookup (pyLower region)).getD telanganaWater
  { success := true
    region := region
    avg_rainfall_mm := region_data.avg_rainfall_mm
    context_summary :=
      "Water & Irrigation Data for " ++ region ++ ": Average annual rainfall: " ++
      toString region_data.avg_rainfall_mm ++ "mm. Groundwater level status: " ++
      region_data.groundwater_level ++ ". Current soil moisture: " ++
      region_data.soil_moisture ++ ". Recommendation: " ++
      region_data.irrigation_advice ++ "." }

end WaterDataTool

/-- `self.common_pests` of `PestAdvisoryTool`. -/
def common_pests : List (String × List String) :=
  [("tomato", ["fruit borer", "leaf curl virus", "whitefly", "early blight"]),
   ("rice", ["stem borer", "blast disease", "brown planthopper (BPH)", "sheath blight"]),
   ("cotton", ["bollworm (pink/American)", "whitefly", "aphids", "jassids"]),
   ("wheat", ["rust", "aphids", "termites", "loose smut"])]

/-- The dictionary returned by `get_pest_info`. -/
structure PestData where
  success : Bool
  crop : String
  pests : List String
  advice : String
  context_summary : String
deriving Repr, DecidableEq

namespace PestAdvisoryTool

/-- `PestAdvisoryTool.get_pest_info`: look the lowercased crop up in the
mock pest table; a recognized crop gets the specific advisory text, an
unknown crop the generic one; both branches succeed and use the advice as
the context summary. -/
def get_pest_info (crop : String) : PestData :=
  let pests := (common_pests.lookup (pyLower crop)).getD []
  let advice :=
    if !pests.isEmpty then
      "Common pests for " ++ crop ++ ": " ++ pyJoin ", " pests ++
      ". Use Integrated Pest Management (IPM) practices, including regular field scouting, " ++
      "using resistant varieties, and only applying targeted pesticides when necessary. " ++
      "Consult the local agricultural extension office for specific treatment protocols."
    else
      "No specific common pest list found for \x27" ++ crop ++ "\x27. " ++
      "General advice: Monitor your crop for signs of pests or diseases, " ++
      "maintain good field hygiene, and practice crop rotation."
  { success := true, crop := crop, pests := pests, advice := advice,
    context_summary := advice }

end PestAdvisoryTool

/- ===================================================================
   AgriAgent.query  (backend/agent.py, class AgriAgent)
   =================================================================== -/

/-- Tag identifying which evidence source a context section came from;
the tag is determined by the append site in `query` and instruments the
otherwise plain list of section strings. -/
inductive SectionKind where
  | rag
  | weather
  | market
  | water
  | pest
deriving Repr, DecidableEq

/-- Outcome of `self.response_llm.generate(...)` in step 4 of `query`:
normal return, the `ConnectionError` raised on credential exhaustion, or
any other exception. -/
inductive GenOutcome where
  | ok (text : String)
  | connError (msg : String)
  | otherError (msg : String)
deriving Repr, DecidableEq

/-- The explicit outcomes of all remote collaborators one `query` call
touches, plus the read-only stores of the local tools. -/
structure QueryInputs where
  parse : String → Except Unit (List (String × Json))
  genDecide : Except Unit String
  ragDocs : List String
  ragMeta : List RagMeta
  ragOutcome : Except String (List ℚ × List Int)
  weatherOutcome : WeatherOutcome
  marketRender : PriceRow → String
  marketDf : Option (List PriceRow)
  genAnswer : GenOutcome

/-- The result dictionary of `AgriAgent.query`. -/
structure AgentResult where
  question : String
  answer : String
  tools_used : List String
  context : String
deriving Repr, DecidableEq

/-- `sorted(list(set(tools_used)))`. -/
def pySortedSet (l : List String) : List String :=
  List.insertionSort (· ≤ ·) l.dedup

/-- `tool_decisions.get(k)` as a boolean: missing key is `None`, hence
falsy. -/
def flagOf (d : List (String × Json)) (k : String) : Bool :=
  match d.lookup k with
  | some v => jsonTruthy v
  | none => false

/-- `tool_decisions.get('rag', True)` as a boolean. -/
def ragFlagOf (d : List (String × Json)) : Bool :=
  match d.lookup "rag" with
  | some v => jsonTruthy v
  | none => true

/-- The `process_tool_result` helper of `query`, returning what one tool
invocation contributes to `tools_used` and `context_parts`: on success
with a truthy summary, the tool name and a labeled section; with a truthy
summary but no success, only a "Data unavailable" section; with a falsy
summary, nothing. -/
def process_tool_result (tool_name : String) (kind : SectionKind) (success : Bool)
    (summary : Option String) (context_name : String) :
    List String × List (SectionKind × String) :=
  match summary with
  | none => ([], [])
  | some s =>
    if success && !s.isEmpty then
      ([tool_name], [(kind, "[" ++ context_name ++ "]\n" ++ s ++ "\n")])
    else if !s.isEmpty then
      ([], [(kind, "[" ++ context_name ++ "]\nData unavailable. " ++ s ++ "\n")])
    else ([], [])

/-- The context sections step 2 of `query` appends for the RAG result:
one section per accepted hit when the search succeeded and was relevant
(`enumerate(zip(results, scores), 1)`), a single "No relevant
information" section when it succeeded without relevant hits, and a single
"Tool failed to execute" section when it failed. -/
def ragSections (rag : RagOutput) : List (SectionKind × String) :=
  if rag.success then
    if rag.is_relevant then
      (rag.results.zip rag.scores).enum.map fun p =>
        (SectionKind.rag,
         "[RAG Knowledge Base - Context " ++ toString (p.1 + 1) ++ " (Source: " ++
         p.2.1.source ++ ", Relevance: " ++ toString p.2.2 ++ ")]\n" ++
         p.2.1.text ++ "\n")
    else
      [(SectionKind.rag,
        "[RAG Knowledge Base]\nNo relevant information found (Score below threshold).\n")]
  else
    [(SectionKind.rag,
      "[RAG Knowledge Base]\nTool failed to execute: " ++
      rag.error.getD "Unknown Error" ++ "\n")]

/-- The hard-coded commodity detection list of step 3b. -/
def commoditiesList : List String :=
  ["rice", "wheat", "cotton", "tomato", "maize", "paddy", "chili", "mango"]

/-- The hard-coded crop detection list of step 3d. -/
def cropsList : List String :=
  ["rice", "wheat", "cotton", "tomato", "mango", "chili", "maize", "paddy"]

/-- The commodity detection of step 3b:
`next((c for c in commodities if c in question.lower()), 'general commodity')`. -/
def marketCommodity (question : String) : String :=
  (commoditiesList.find? fun c => strContains (pyLower question) c).getD
    "general commodity"

/-- The crop detection of step 3d. -/
def pestCrop (question : String) : String :=
  (cropsList.find? fun c => strContains (pyLower question) c).getD "general crop"

namespace AgriAgent

/-- Step 2 of `query`: the RAG invocation's contribution to `tools_used`
(`'RAG'` is recorded exactly when the call succeeded, independent of
relevance) and to `context_parts`. -/
def ragPart (tool_decisions : List (String × Json)) (inp : QueryInputs) :
    List String × List (SectionKind × String) :=
  if ragFlagOf tool_decisions then
    let rag_result := RAGTool.search inp.ragDocs inp.ragMeta (35 / 100) inp.ragOutcome
    ((if rag_result.success then ["RAG"] else []), ragSections rag_result)
  else ([], [])

/-- Step 3a of `query`: the weather invocation's contribution. -/
def weatherPart (tool_decisions : List (String × Json)) (inp : QueryInputs) :
    List String × List (SectionKind × String) :=
  if flagOf tool_decisions "weather" then
    let weather_data := WeatherTool.get_weather "Hyderabad" inp.weatherOutcome
    process_tool_result "Weather" SectionKind.weather weather_data.success
      (some weather_data.context_summary) "LIVE WEATHER DATA"
  else ([], [])

/-- Step 3b of `query`: the market invocation's contribution. -/
def marketPart (tool_decisions : List (String × Json)) (question : String)
    (inp : QueryInputs) : List String × List (SectionKind × String) :=
  if flagOf tool_decisions "market" then
    let commodity := marketCommodity question
    let market_data := MarketPriceTool.get_price inp.marketRender inp.marketDf commodity
    process_tool_result "Market" SectionKind.market market_data.success
      (some market_data.context_summary) ("MARKET PRICE DATA - " ++ commodity.toUpper)
  else ([], [])

/-- Step 3c of `query`: the water invocation's contribution. -/
def waterPart (tool_decisions : List (String × Json)) :
    List String × List (SectionKind × String) :=
  if flagOf tool_decisions "water" then
    let water_data := WaterDataTool.get_water_info "Telangana"
    process_tool_result "Water" SectionKind.water water_data.success
      (some water_data.context_summary) "WATER & IRRIGATION DATA"
  else ([], [])

/-- Step 3d of `query`: the pest invocation's contribution. -/
def pestPart (tool_decisions : List (String × Json)) (question : String) :
    List String × List (SectionKind × String) :=
  if flagOf tool_decisions "pest" then
    let crop := pestCrop question
    let pest_data := PestAdvisoryTool.get_pest_info crop
    process_tool_result "Pest" SectionKind.pest pest_data.success
      (some pest_data.context_summary) ("PEST ADVISORY - " ++ crop.toUpper)
  else ([], [])

/-- Steps 1–3 of `AgriAgent.query`: decide the tools, then accumulate
`tools_used` and the tagged `context_parts` in the fixed program order
RAG → weather → market → water → pest.  Each invoked tool appends only to
the end of the two lists, so the accumulated lists are the concatenations
of the per-tool contributions in that order. -/
def queryCore (question : String) (inp : QueryInputs) :
    List String × List (SectionKind × String) :=
  let tool_decisions := decide_tools inp.parse question inp.genDecide
  let p1 := ragPart tool_decisions inp
  let p2 := weatherPart tool_decisions inp
  let p3 := marketPart tool_decisions question inp
  let p4 := waterPart tool_decisions
  let p5 := pestPart tool_decisions question
  (p1.1 ++ p2.1 ++ p3.1 ++ p4.1 ++ p5.1,
   p1.2 ++ p2.2 ++ p3.2 ++ p4.2 ++ p5.2)

/-- Steps 4–5 of `AgriAgent.query`: join the context parts, run the answer
generation with its two `except` handlers, and assemble the result with
`sorted(list(set(tools_used)))`. -/
def query (question : String) (inp : QueryInputs) : AgentResult :=
  let core := queryCore question inp
  let full_context := (pyJoin "\n" (core.2.map Prod.snd)).trim
  let answer :=
    match inp.genAnswer with
    | .ok t => t
    | .connError m => "**Service Error:** " ++ m
    | .otherError m => "**Internal Error:** Failed to generate response. " ++ m
  { question := question
    answer := answer
    tools_used := pySortedSet core.1
    context := full_context }

end AgriAgent

/- ===================================================================
   Helper lemmas: association-list lookup under filtering
   =================================================================== -/

lemma lookup_eq_none_of_not_mem {c : String} {l : List (String × Int)}
    (h : c ∉ l.map Prod.fst) : l.lookup c = none := by
  induction l with
  | nil => rfl
  | cons kv rest ih =>
    simp only [List.map_cons, List.mem_cons, not_or] at h
    have hne : (c == kv.1) = false := beq_false_of_ne h.1
    obtain ⟨k, v⟩ := kv
    simpa [List.lookup, hne] using ih h.2

lemma lookup_filter_keep {c : String} {t0 : Int} {l : List (String × Int)}
    {p : String × Int → Bool} (h : l.lookup c = some t0) (hp : p (c, t0) = true) :
    (l.filter p).lookup c = some t0 := by
  induction l with
  | nil => simp at h
  | cons kv rest ih =>
    obtain ⟨k, v⟩ := kv
    by_cases hk : c = k
    · subst hk
      simp only [List.lookup, beq_self_eq_true] at h
      obtain rfl : v = t0 := by simpa using h
      simp [List.filter, hp, List.lookup]
    · have hne : (c == k) = false := beq_false_of_ne hk
      simp only [List.lookup, hne] at h
      by_cases hpkv : p (k, v) = true
      · simpa [List.filter, hpkv, List.lookup, hne] using ih h
      · simp only [Bool.not_eq_true] at hpkv
        simpa [List.filter, hpkv] using ih h

lemma lookup_filter_drop {c : String} {t0 : Int} {l : List (String × Int)}
    {p : String × Int → Bool} (h : l.lookup c = some t0)
    (hnd : (l.map Prod.fst).Nodup) (hp : p (c, t0) = false) :
    (l.filter p).lookup c = none := by
  induction l with
  | nil => rfl
  | cons kv rest ih =>
    obtain ⟨k, v⟩ := kv
    simp only [List.map_cons, List.nodup_cons] at hnd
    by_cases hk : c = k
    · subst hk
      simp only [List.lookup, beq_self_eq_true] at h
      obtain rfl : v = t0 := by simpa using h
      have hrest : (rest.filter p).lookup c = none := by
        apply lookup_eq_none_of_not_mem
        intro hmem
        apply hnd.1
        simp only [List.mem_map] at hmem ⊢
        obtain ⟨q, hq, hfst⟩ := hmem
        exact ⟨q, List.mem_of_mem_filter hq, hfst⟩
      simpa [List.filter, hp] using hrest
    · have hne : (c == k) = false := beq_false_of_ne hk
      simp only [List.lookup, hne] at h
      by_cases hpkv : p (k, v) = true
      · simpa [List.filter, hpkv, List.lookup, hne] using ih h hnd.2
      · simp only [Bool.not_eq_true] at hpkv
        simpa [List.filter, hpkv] using ih h hnd.2

/- ===================================================================
   Helper lemmas: the rotation search loop
   =================================================================== -/

lemma rotLoop_some_not_failed {keys : List String} {failed : List (String × Int)} :
    ∀ (fuel idx : Nat) (k : String),
      (rotLoop keys failed idx fuel).1 = some k → failed.lookup k = none := by
  intro fuel
  induction fuel with
  | zero => intro idx k h; simp [rotLoop] at h
  | succ n ih =>
    intro idx k h
    rw [rotLoop] at h
    by_cases hav : (failed.lookup (keys.getD idx "")).isNone = true
    · simp only [hav, if_true] at h
      obtain rfl : keys.getD idx "" = k := by simpa using h
      exact Option.eq_none_of_isNone hav
    · simp only [hav, if_false] at h
      exact ih _ k h

lemma rotLoop_count_le {keys : List String} {failed : List (String × Int)} :
    ∀ (fuel idx : Nat), (rotLoop keys failed idx fuel).2.2 ≤ fuel := by
  intro fuel
  induction fuel with
  | zero => intro idx; simp [rotLoop]
  | succ n ih =>
    intro idx
    rw [rotLoop]
    by_cases hav : (failed.lookup (keys.getD idx "")).isNone = true
    · rw [if_pos hav]
      exact Nat.succ_le_succ (Nat.zero_le n)
    · rw [if_neg hav]
      exact Nat.succ_le_succ (ih _)

lemma rotLoop_idx_eq {keys : List String} {failed : List (String × Int)} :
    ∀ (fuel idx : Nat), idx < keys.length →
      (rotLoop keys failed idx fuel).2.1 =
        (idx + (rotLoop keys failed idx fuel).2.2) % keys.length := by
  intro fuel
  induction fuel with
  | zero =>
    intro idx hidx
    simp [rotLoop, Nat.mod_eq_of_lt hidx]
  | succ n ih =>
    intro idx hidx
    have hpos : 0 < keys.length := Nat.lt_of_le_of_lt (Nat.zero_le idx) hidx
    rw [rotLoop]
    by_cases hav : (failed.lookup (keys.getD idx "")).isNone = true
    · rw [if_pos hav]
    · rw [if_neg hav]
      have hidx2 : (idx + 1) % keys.length < keys.length := Nat.mod_lt _ hpos
      show (rotLoop keys failed ((idx + 1) % keys.length) n).2.1 =
        (idx + ((rotLoop keys failed ((idx + 1) % keys.length) n).2.2 + 1)) % keys.length
      rw [ih ((idx + 1) % keys.length) hidx2, Nat.mod_add_mod]
      congr 1
      omega

lemma rotLoop_all_failed {keys : List String} {failed : List (String × Int)}
    (hall : ∀ k ∈ keys, (failed.lookup k).isSome = true) :
    ∀ (fuel idx : Nat), idx < keys.length → (rotLoop keys failed idx fuel).1 = none := by
  intro fuel
  induction fuel with
  | zero => intro idx _; simp [rotLoop]
  | succ n ih =>
    intro idx hidx
    have hpos : 0 < keys.length := Nat.lt_of_le_of_lt (Nat.zero_le idx) hidx
    have hkey : keys.getD idx "" ∈ keys := by
      rw [List.getD_eq_getElem keys "" hidx]
      exact List.getElem_mem hidx
    have hsome := hall _ hkey
    have hav : (failed.lookup (keys.getD idx "")).isNone = false := by
      cases hlk : failed.lookup (keys.getD idx "") with
      | none => rw [hlk] at hsome; simp at hsome
      | some v => simp
    have havne : ¬ ((failed.lookup (keys.getD idx "")).isNone = true) := by
      rw [hav]; exact Bool.false_ne_true
    rw [rotLoop, if_neg havne]
    exact ih _ (Nat.mod_lt _ hpos)

lemma rotLoop_no_failed {keys : List String} (idx fuel : Nat) :
    rotLoop keys [] idx (fuel + 1) =
      (some (keys.getD idx ""), (idx + 1) % keys.length, 1) := by
  rw [rotLoop]
  simp [List.lookup]

lemma cleanup_nil {r : APIKeyRotator} (now : Int) (h : r.failed_keys = []) :
    cleanup now r = [] := by
  simp [cleanup, h]

lemma get_next_key_no_failed {r : APIKeyRotator} (now : Int)
    (h0 : r.failed_keys = []) (hlen : 0 < r.api_keys.length) :
    get_next_key now r =
      (some (r.api_keys.getD r.current_index ""),
       { r with failed_keys := [],
                current_index := (r.current_index + 1) % r.api_keys.length }) := by
  obtain ⟨m, hm⟩ : ∃ m, r.api_keys.length = m + 1 :=
    ⟨r.api_keys.length - 1, by omega⟩
  rw [get_next_key, cleanup_nil now h0, hm, rotLoop_no_failed]
  rw [← hm]

lemma nextCalls_no_failed (keys : List String) (cm : Nat) (now : Int)
    (hlen : 0 < keys.length) :
    ∀ (j idx : Nat), idx < keys.length →
      nextCalls now j ⟨keys, idx, cm, []⟩ =
        ((List.range j).map fun t => some (keys.getD ((idx + t) % keys.length) ""),
         ⟨keys, (idx + j) % keys.length, cm, []⟩) := by
  intro j
  induction j with
  | zero =>
    intro idx hidx
    simp [nextCalls, Nat.mod_eq_of_lt hidx]
  | succ n ih =>
    intro idx hidx
    have hstep := get_next_key_no_failed (r := ⟨keys, idx, cm, []⟩) now rfl hlen
    have hidx2 : (idx + 1) % keys.length < keys.length := Nat.mod_lt _ hlen
    have hrec := ih ((idx + 1) % keys.length) hidx2
    rw [nextCalls, hstep]
    show (some (keys.getD idx "") ::
        (nextCalls now n ⟨keys, (idx + 1) % keys.length, cm, []⟩).1,
        (nextCalls now n ⟨keys, (idx + 1) % keys.length, cm, []⟩).2) = _
    rw [hrec]
    refine Prod.ext ?_ ?_
    · show some (keys.getD idx "") ::
        (List.range n).map (fun t => some (keys.getD (((idx + 1) % keys.length + t) % keys.length) "")) = _
      rw [List.range_succ_eq_map, List.map_cons, List.map_map]
      refine congrArg₂ List.cons ?_ ?_
      · show some (keys.getD idx "") = some (keys.getD ((idx + 0) % keys.length) "")
        rw [Nat.add_zero, Nat.mod_eq_of_lt hidx]
      · apply List.map_congr_left
        intro t _
        show some (keys.getD (((idx + 1) % keys.length + t) % keys.length) "") =
          some (keys.getD ((idx + (t + 1)) % keys.length) "")
        rw [Nat.mod_add_mod]
        have harith : idx + 1 + t = idx + (t + 1) := by omega
        rw [harith]
    · show APIKeyRotator.mk keys (((idx + 1) % keys.length + n) % keys.length) cm [] = _
      rw [Nat.mod_add_mod]
      have harith : idx + 1 + n = idx + (n + 1) := by omega
      rw [harith]

lemma range_map_getD (keys : List String) :
    (List.range keys.length).map (fun t => some (keys.getD t "")) = keys.map some := by
  apply List.ext_getElem
  · simp
  · intro i h1 h2
    simp only [List.getElem_map, List.getElem_range]
    rw [List.getD_eq_getElem keys "" (by simpa using h2)]

/-- Claim C1: for a pool of `N ≥ 1` keys with no key disabled, `N`
successive `get_next_key` calls starting from a freshly initialized
rotator return each key exactly once in list order, the `(N+1)`-th call
returns the first key again, and — for every pool state — the cursor
after a call equals the starting cursor plus the number of examined
candidates, modulo the pool size (one advance per examined candidate,
usable or not). -/
theorem claim_C1 (keys : List String) (cm : Nat) (now : Int)
    (h : 1 ≤ keys.length) :
    ((nextCalls now keys.length ⟨keys, 0, cm, []⟩).1 = keys.map some) ∧
    ((nextCalls now (keys.length + 1) ⟨keys, 0, cm, []⟩).1 =
      keys.map some ++ [some (keys.getD 0 "")]) ∧
    (∀ (failed : List (String × Int)) (idx fuel : Nat), idx < keys.length →
      (rotLoop keys failed idx fuel).2.1 =
        (idx + (rotLoop keys failed idx fuel).2.2) % keys.length) := by
  have hlen : 0 < keys.length := h
  refine ⟨?_, ?_, ?_⟩
  · rw [nextCalls_no_failed keys cm now hlen keys.length 0 hlen]
    simp only
    rw [← range_map_getD keys]
    apply List.map_congr_left
    intro t ht
    rw [List.mem_range] at ht
    rw [Nat.zero_add, Nat.mod_eq_of_lt ht]
  · rw [nextCalls_no_failed keys cm now hlen (keys.length + 1) 0 hlen]
    simp only
    rw [List.range_succ, List.map_append]
    congr 1
    · rw [← range_map_getD keys]
      apply List.map_congr_left
      intro t ht
      rw [List.mem_range] at ht
      rw [Nat.zero_add, Nat.mod_eq_of_lt ht]
    · simp [Nat.mod_self]
  · intro failed idx fuel hidx
    exact rotLoop_idx_eq fuel idx hidx

/-- Witness for C1 at the concrete pool `["a", "b", "c"]`. -/
theorem claim_C1_witness :
    ((nextCalls 0 3 ⟨["a", "b", "c"], 0, 5, []⟩).1 = ["a", "b", "c"].map some) ∧
    ((nextCalls 0 4 ⟨["a", "b", "c"], 0, 5, []⟩).1 =
      ["a", "b", "c"].map some ++ [some "a"]) ∧
    (∀ (failed : List (String × Int)) (idx fuel : Nat), idx < 3 →
      (rotLoop ["a", "b", "c"] failed idx fuel).2.1 =
        (idx + (rotLoop ["a", "b", "c"] failed idx fuel).2.2) % 3) :=
  claim_C1 ["a", "b", "c"] 5 0 (by decide)

/-- Claim C2, counterexample: with the default 5-minute cooldown, key
`"k"` marked failed with code 429 at time 0 is still skipped by a
`get_next_key` call made exactly at the expiry instant
`0 + 5 * 60000000` microseconds, because the clean-up uses a strict
comparison (`now - fail_time > delta`); the claim asserts the key is
already eligible at that instant.  The pool contains only `"k"`, so the
call returns no key at all. -/
theorem claim_C2_cex :
    (get_next_key 300000000
      (mark_key_failed 0 "k" (some 429) ⟨["k"], 0, 5, []⟩)).1 = none := by
  decide

/-- Claim C2, amended: after `mark_key_failed` records failure time `t0`
for credential `c`, a `get_next_key` call at time `now` with
`now - t0 ≤ cooldown` (before or exactly at the expiry instant) never
returns `c`; a call with `now - t0 > cooldown` (strictly after expiry)
removes `c` from the failed set, and returns `c` when `c` is the sole
pool entry. -/
theorem claim_C2_amended (r : APIKeyRotator) (c : String) (t0 now : Int)
    (hc : r.failed_keys.lookup c = some t0)
    (hnd : (r.failed_keys.map Prod.fst).Nodup) :
    (now - t0 ≤ cooldownDelta r → (get_next_key now r).1 ≠ some c) ∧
    (cooldownDelta r < now - t0 →
      ((get_next_key now r).2.failed_keys.lookup c = none) ∧
      (r.api_keys = [c] → r.current_index = 0 → (get_next_key now r).1 = some c)) := by
  constructor
  · intro hle hsome
    have hkeep : (cleanup now r).lookup c = some t0 := by
      apply lookup_filter_keep hc
      simp only [decide_eq_true_eq]
      exact hle
    have hnone : (cleanup now r).lookup c = none := by
      have := @rotLoop_some_not_failed r.api_keys (cleanup now r)
        r.api_keys.length r.current_index c
      apply this
      exact hsome
    rw [hkeep] at hnone
    exact Option.some_ne_none t0 hnone
  · intro hgt
    have hdrop : (cleanup now r).lookup c = none := by
      apply lookup_filter_drop hc hnd
      simp only [decide_eq_false_iff_not, not_le]
      exact hgt
    refine ⟨hdrop, ?_⟩
    intro hkeys hidx
    show (rotLoop r.api_keys (cleanup now r) r.current_index r.api_keys.length).1 = some c
    rw [hkeys, hidx]
    show (rotLoop [c] (cleanup now r) 0 1).1 = some c
    rw [rotLoop]
    have : ((cleanup now r).lookup (([c] : List String).getD 0 "")).isNone = true := by
      show ((cleanup now r).lookup c).isNone = true
      rw [hdrop]
      rfl
    rw [if_pos this]
    rfl

/-- Witness for the amended C2 at a one-key pool with failure time 0 and
the default 5-minute cooldown: at `now = 100` (before expiry) the key is
not returned; at `now = 300000001` (one microsecond after expiry) it is
removed from the failed set and returned. -/
theorem claim_C2_witness :
    ((get_next_key 100 ⟨["k"], 0, 5, [("k", 0)]⟩).1 ≠ some "k") ∧
    ((get_next_key 300000001 ⟨["k"], 0, 5, [("k", 0)]⟩).2.failed_keys.lookup "k"
      = none) ∧
    ((get_next_key 300000001 ⟨["k"], 0, 5, [("k", 0)]⟩).1 = some "k") := by
  have h1 := claim_C2_amended ⟨["k"], 0, 5, [("k", 0)]⟩ "k" 0 100
    (by decide) (by decide)
  have h2 := claim_C2_amended ⟨["k"], 0, 5, [("k", 0)]⟩ "k" 0 300000001
    (by decide) (by decide)
  have h2' := h2.2 (by decide)
  exact ⟨h1.1 (by decide), h2'.1, h2'.2 rfl rfl⟩

/-- Claim C3: a single `get_next_key` call examines at most
`len(api_keys)` candidate slots (the loop is fuel-bounded, so it
terminates on every pool state, the empty pool included), and when every
key of the pool is disabled after the lazy clean-up the call returns the
distinguished `none` result. -/
theorem claim_C3 (r : APIKeyRotator) (now : Int)
    (hwf : r.current_index < r.api_keys.length ∨ r.api_keys = []) :
    ((rotLoop r.api_keys (cleanup now r) r.current_index r.api_keys.length).2.2
      ≤ r.api_keys.length) ∧
    ((∀ k ∈ r.api_keys, ((cleanup now r).lookup k).isSome = true) →
      (get_next_key now r).1 = none) := by
  constructor
  · exact rotLoop_count_le r.api_keys.length r.current_index
  · intro hall
    cases hwf with
    | inl hlt =>
      show (rotLoop r.api_keys (cleanup now r) r.current_index r.api_keys.length).1 = none
      exact rotLoop_all_failed hall _ _ hlt
    | inr hnil =>
      show (rotLoop r.api_keys (cleanup now r) r.current_index r.api_keys.length).1 = none
      rw [hnil]
      rfl

/-- Witness for C3: the pool of three keys, all marked failed at time 0
and queried at time 0 (no cooldown has expired), returns `none` after at
most three examined candidates; the empty pool also returns `none`. -/
theorem claim_C3_witness :
    ((rotLoop ["a", "b", "c"]
        (cleanup 0 ⟨["a", "b", "c"], 0, 5, [("a", 0), ("b", 0), ("c", 0)]⟩) 0 3).2.2
      ≤ 3 ∧
     (get_next_key 0 ⟨["a", "b", "c"], 0, 5, [("a", 0), ("b", 0), ("c", 0)]⟩).1
      = none) ∧
    (get_next_key 0 ⟨[], 0, 5, []⟩).1 = none := by
  have h1 := claim_C3 ⟨["a", "b", "c"], 0, 5, [("a", 0), ("b", 0), ("c", 0)]⟩ 0
    (Or.inl (by decide))
  have h2 := claim_C3 ⟨[], 0, 5, []⟩ 0 (Or.inr rfl)
  refine ⟨⟨h1.1, h1.2 (by decide)⟩, h2.2 ?_⟩
  intro k hk
  exact absurd hk (List.not_mem_nil k)

/-- Claim C4: for every question, every generation outcome (including a
raised call), every model response (including one with no JSON braces at
all), and every behaviour of the JSON parser (including objects that omit
the `rag` key or set it to `false`), `decide_tools` returns a decision
whose `rag` flag is the JSON boolean `true`; the keyword fallback path is
a total function by construction, so it never raises. -/
theorem claim_C4 (parse : String → Except Unit (List (String × Json)))
    (question : String) (gen : Except Unit String) :
    (decide_tools parse question gen).lookup "rag" = some (Json.bool true) := by
  have hfb : (fallback_detection question).lookup "rag" = some (Json.bool true) := by
    simp [fallback_detection, List.lookup]
  cases gen with
  | error e => exact hfb
  | ok response =>
    have hstep : decide_tools parse question (.ok response) =
        match findJsonMatch response with
        | none => fallback_detection question
        | some json_string =>
          match parse json_string.trim with
          | .error _ => fallback_detection question
          | .ok decisions =>
            dictUpsert "rag" (Json.bool true)
              (allowed_keys.map fun k => (k, (decisions.lookup k).getD (Json.bool false))) :=
      rfl
    rw [hstep]
    cases findJsonMatch response with
    | none => exact hfb
    | some json_string =>
      show (match parse json_string.trim with
        | .error _ => fallback_detection question
        | .ok decisions =>
          dictUpsert "rag" (Json.bool true)
            (allowed_keys.map fun k =>
              (k, (decisions.lookup k).getD (Json.bool false)))).lookup "rag" =
        some (Json.bool true)
      cases parse json_string.trim with
      | error e => exact hfb
      | ok decisions =>
        simp [allowed_keys, dictUpsert, List.lookup]

/- ===================================================================
   Helper lemmas: the RAG search loop and pyMax
   =================================================================== -/

lemma le_foldl_max (a : ℚ) : ∀ (l : List ℚ), a ≤ l.foldl max a := by
  intro l
  induction l generalizing a with
  | nil => simp
  | cons x xs ih => exact le_trans (le_max_left a x) (ih (max a x))

lemma thr_le_pyMax {thr : ℚ} {l : List ℚ} (hne : l ≠ [])
    (hall : ∀ s ∈ l, thr ≤ s) : thr ≤ pyMax l := by
  cases l with
  | nil => exact absurd rfl hne
  | cons x xs =>
    exact le_trans (hall x (List.mem_cons_self x xs)) (le_foldl_max x xs)

lemma ragLoop_ok_lengths {docs : List String} {meta : List RagMeta} {thr : ℚ} :
    ∀ (l : List (Int × ℚ)) (rs : List RagHit) (ss : List ℚ),
      ragLoop docs meta thr l = .ok (rs, ss) →
      rs.length = ss.length ∧ ∀ s ∈ ss, thr ≤ s := by
  intro l
  induction l with
  | nil =>
    intro rs ss h
    rw [ragLoop] at h
    simp only [Except.ok.injEq, Prod.mk.injEq] at h
    obtain ⟨h1, h2⟩ := h
    subst h1; subst h2
    simp
  | cons p rest ih =>
    intro rs ss h
    obtain ⟨idx, score⟩ := p
    rw [ragLoop] at h
    by_cases hacc : ragAccept docs thr (idx, score) = true
    · rw [if_pos hacc] at h
      cases hm : meta.get? idx.toNat with
      | none => rw [hm] at h; exact absurd h (by simp)
      | some m =>
        rw [hm] at h
        cases hrec : ragLoop docs meta thr rest with
        | error e => rw [hrec] at h; exact absurd h (by simp)
        | ok pr =>
          obtain ⟨rs', ss'⟩ := pr
          rw [hrec] at h
          simp only [Except.ok.injEq, Prod.mk.injEq] at h
          obtain ⟨h1, h2⟩ := h
          subst h1; subst h2
          have hih := ih rs' ss' hrec
          constructor
          · simp [hih.1]
          · intro s hs
            rcases List.mem_cons.mp hs with hs | hs
            · subst hs
              have : decide (thr ≤ s) = true := by
                simp only [ragAccept, Bool.and_eq_true] at hacc
                exact hacc.1.1
              simpa using this
            · exact hih.2 s hs
    · rw [if_neg hacc] at h
      exact ih rs ss h

lemma ragLoop_ok_of_le {docs : List String} {meta : List RagMeta} {thr : ℚ}
    (hle : docs.length ≤ meta.length) :
    ∀ (l : List (Int × ℚ)),
      ragLoop docs meta thr l =
        .ok ((l.filter (ragAccept docs thr)).map (ragDeref docs meta),
             (l.filter (ragAccept docs thr)).map Prod.snd) := by
  intro l
  induction l with
  | nil => rw [ragLoop]; simp
  | cons p rest ih =>
    obtain ⟨idx, score⟩ := p
    rw [ragLoop]
    by_cases hacc : ragAccept docs thr (idx, score) = true
    · rw [if_pos hacc]
      have hbound : idx.toNat < meta.length := by
        have hdoc : idx.toNat < docs.length := by
          simp only [ragAccept, Bool.and_eq_true, decide_eq_true_eq] at hacc
          omega
        omega
      cases hm : meta.get? idx.toNat with
      | none =>
        rw [List.get?_eq_none] at hm
        omega
      | some m =>
        rw [ih]
        have hmd : meta.getD idx.toNat ⟨"", ""⟩ = m := by
          rw [List.getD_eq_getElem?_getD, ← List.get?_eq_getElem?, hm]
          rfl
        rw [List.filter_cons_of_pos hacc]
        simp only [List.map_cons, ragDeref, hmd]
    · rw [if_neg hacc]
      rw [List.filter_cons_of_neg (by simpa using hacc)]
      exact ih

/-- Claim C5 (evidence for the code bug): the conversion the code applies
to a value `d` returned by the nearest-neighbor index is
`1 - d^2 / 2` (`ragSimilarity`).  The index returns squared L2 distances
(as the code's own comment states), so at a returned squared distance of
0 the similarity is 1.0 as claimed, but at a returned squared distance of
2 the code computes -1.0, not the claimed (and mathematically correct)
0.0: the code squares the already-squared distance. -/
theorem claim_C5_eval :
    ragSimilarity 0 = 1 ∧ ragSimilarity 2 = -1 ∧ ragSimilarity 2 ≠ 0 := by
  refine ⟨by norm_num [ragSimilarity], by norm_num [ragSimilarity],
    by norm_num [ragSimilarity]⟩

/-- Claim C6, counterexample: a successful search whose single hit has
returned distance 2 (so computed similarity -1, below the 0.35 threshold)
returns `top_score = 0.0`, while the maximum similarity observed over the
returned hits is -1. -/
theorem claim_C6_cex :
    (RAGTool.search ["d"] [⟨"s", "t"⟩] (35 / 100) (.ok ([2], [0]))).success = true ∧
    (RAGTool.search ["d"] [⟨"s", "t"⟩] (35 / 100) (.ok ([2], [0]))).top_score = 0 ∧
    pyMax ([(2 : ℚ)].map ragSimilarity) = -1 ∧ (0 : ℚ) ≠ -1 := by
  have hsim : ragSimilarity 2 = -1 := by norm_num [ragSimilarity]
  have haccf : ¬ (ragAccept ["d"] (35 / 100) (0, ragSimilarity 2) = true) := by
    rw [hsim]
    simp only [ragAccept, Bool.and_eq_true, decide_eq_true_eq]
    intro hcon
    have := hcon.1.1
    norm_num at this
  have hloop : ragLoop ["d"] [⟨"s", "t"⟩] (35 / 100)
      (([0] : List Int).zip (([2] : List ℚ).map ragSimilarity)) = .ok ([], []) := by
    rw [List.map_cons, List.map_nil, List.zip_cons_cons, List.zip_nil_right]
    rw [ragLoop, if_neg haccf, ragLoop]
  have hstep : RAGTool.search ["d"] [⟨"s", "t"⟩] (35 / 100) (.ok ([2], [0])) =
      match ragLoop ["d"] [⟨"s", "t"⟩] (35 / 100)
        (([0] : List Int).zip (([2] : List ℚ).map ragSimilarity)) with
      | .error e => { success := false, error := some e, is_relevant := false }
      | .ok (results, scores) =>
        { success := true, results := results, scores := scores,
          is_relevant := decide (0 < results.length) &&
            decide ((35 / 100 : ℚ) ≤ pyMax scores),
          top_score := pyMax scores } := rfl
  rw [hstep, hloop]
  refine ⟨rfl, rfl, ?_, by norm_num⟩
  rw [List.map_cons, List.map_nil, hsim]
  rfl

/-- Claim C6, amended: for every successful search, the returned top
score equals the maximum similarity over the *accepted* hits (those that
cleared the threshold and the bounds check), with 0.0 when no hit was
accepted, and the relevance flag is true iff at least one hit was
accepted. -/
theorem claim_C6_amended (docs : List String) (meta : List RagMeta) (thr : ℚ)
    (distances : List ℚ) (indices : List Int)
    (results : List RagHit) (scores : List ℚ)
    (h : ragLoop docs meta thr (indices.zip (distances.map ragSimilarity)) =
      .ok (results, scores)) :
    (RAGTool.search docs meta thr (.ok (distances, indices))).success = true ∧
    (RAGTool.search docs meta thr (.ok (distances, indices))).results = results ∧
    (RAGTool.search docs meta thr (.ok (distances, indices))).top_score = pyMax scores ∧
    ((RAGTool.search docs meta thr (.ok (distances, indices))).is_relevant = true ↔
      results ≠ []) := by
  have hstep : RAGTool.search docs meta thr (.ok (distances, indices)) =
      match ragLoop docs meta thr (indices.zip (distances.map ragSimilarity)) with
      | .error e => { success := false, error := some e, is_relevant := false }
      | .ok (results, scores) =>
        { success := true, results := results, scores := scores,
          is_relevant := decide (0 < results.length) && decide (thr ≤ pyMax scores),
          top_score := pyMax scores } := rfl
  rw [hstep, h]
  refine ⟨rfl, rfl, rfl, ?_⟩
  show (decide (0 < results.length) && decide (thr ≤ pyMax scores)) = true ↔
    results ≠ []
  have hlen := ragLoop_ok_lengths _ results scores h
  constructor
  · intro hrel
    rw [Bool.and_eq_true] at hrel
    have : 0 < results.length := by simpa using hrel.1
    exact List.ne_nil_of_length_pos this
  · intro hne
    have hpos : 0 < results.length := List.length_pos.mpr hne
    have hsne : scores ≠ [] := by
      intro hnil
      rw [hnil] at hlen
      simp only [List.length_nil] at hlen
      exact hne (List.eq_nil_of_length_eq_zero hlen.1)
    have hthr : thr ≤ pyMax scores := thr_le_pyMax hsne hlen.2
    simp [hpos, hthr]

/-- Witness for the amended C6: one hit at returned distance 0
(similarity exactly 1, above the 0.35 threshold, in bounds): the top
score is the maximum accepted score 1 and the search is relevant. -/
theorem claim_C6_witness :
    (RAGTool.search ["d"] [⟨"s", "t"⟩] (35 / 100) (.ok ([0], [0]))).success = true ∧
    (RAGTool.search ["d"] [⟨"s", "t"⟩] (35 / 100) (.ok ([0], [0]))).results =
      [⟨"d", "s", "t"⟩] ∧
    (RAGTool.search ["d"] [⟨"s", "t"⟩] (35 / 100) (.ok ([0], [0]))).top_score =
      pyMax [1] ∧
    ((RAGTool.search ["d"] [⟨"s", "t"⟩] (35 / 100) (.ok ([0], [0]))).is_relevant = true ↔
      ([⟨"d", "s", "t"⟩] : List RagHit) ≠ []) := by
  apply claim_C6_amended ["d"] [⟨"s", "t"⟩] (35 / 100) [0] [0] [⟨"d", "s", "t"⟩] [1]
  have hsim : ragSimilarity 0 = 1 := by norm_num [ragSimilarity]
  have hacc : ragAccept ["d"] (35 / 100) (0, ragSimilarity 0) = true := by
    rw [hsim]
    simp only [ragAccept, Bool.and_eq_true, decide_eq_true_eq]
    norm_num
  rw [List.map_cons, List.map_nil, List.zip_cons_cons, List.zip_nil_right]
  rw [ragLoop, if_pos hacc, hsim]
  rfl

/-- Claim C9, counterexample: with a one-document store and an *empty*
metadata store (length desynchronization), the index position 0 passes
the bounds check against `documents`, the metadata dereference raises,
and the whole search returns a failure result instead of skipping the
position. -/
theorem claim_C9_cex :
    (RAGTool.search ["a"] [] (35 / 100) (.ok ([0], [0]))).success = false ∧
    (RAGTool.search ["a"] [] (35 / 100) (.ok ([0], [0]))).error =
      some "list index out of range" := by
  have hsim : ragSimilarity 0 = 1 := by norm_num [ragSimilarity]
  have hacc : ragAccept ["a"] (35 / 100) (0, ragSimilarity 0) = true := by
    rw [hsim]
    simp only [ragAccept, Bool.and_eq_true, decide_eq_true_eq]
    norm_num
  have hloop : ragLoop ["a"] [] (35 / 100)
      (([0] : List Int).zip (([0] : List ℚ).map ragSimilarity)) =
      .error "list index out of range" := by
    rw [List.map_cons, List.map_nil, List.zip_cons_cons, List.zip_nil_right]
    rw [ragLoop, if_pos hacc]
    rfl
  have hstep : RAGTool.search ["a"] [] (35 / 100) (.ok ([0], [0])) =
      match ragLoop ["a"] [] (35 / 100)
        (([0] : List Int).zip (([0] : List ℚ).map ragSimilarity)) with
      | .error e => { success := false, error := some e, is_relevant := false }
      | .ok (results, scores) =>
        { success := true, results := results, scores := scores,
          is_relevant := decide (0 < results.length) &&
            decide ((35 / 100 : ℚ) ≤ pyMax scores),
          top_score := pyMax scores } := rfl
  rw [hstep, hloop]
  exact ⟨rfl, rfl⟩

/-- Claim C9, amended: positions are validated against the *document*
store's bounds; negative positions and positions past the end of the
document store are skipped.  When the metadata store is at least as long
as the document store this also guarantees safe metadata dereferencing:
the search succeeds and returns exactly the accepted positions,
dereferenced.  (As `claim_C9_cex` shows, a position inside the document
bounds but outside a shorter metadata store instead fails the whole
search.) -/
theorem claim_C9_amended (docs : List String) (meta : List RagMeta) (thr : ℚ)
    (distances : List ℚ) (indices : List Int)
    (hle : docs.length ≤ meta.length) :
    (RAGTool.search docs meta thr (.ok (distances, indices))).success = true ∧
    (RAGTool.search docs meta thr (.ok (distances, indices))).results =
      ((indices.zip (distances.map ragSimilarity)).filter (ragAccept docs thr)).map
        (ragDeref docs meta) := by
  have h := @ragLoop_ok_of_le docs meta thr hle (indices.zip (distances.map ragSimilarity))
  have hstep : RAGTool.search docs meta thr (.ok (distances, indices)) =
      match ragLoop docs meta thr (indices.zip (distances.map ragSimilarity)) with
      | .error e => { success := false, error := some e, is_relevant := false }
      | .ok (results, scores) =>
        { success := true, results := results, scores := scores,
          is_relevant := decide (0 < results.length) && decide (thr ≤ pyMax scores),
          top_score := pyMax scores } := rfl
  rw [hstep, h]
  exact ⟨rfl, rfl⟩

/-- Witness for the amended C9: two returned positions, one valid (0) and
one past the end of the one-document store (5): the search succeeds and
the out-of-range position is skipped. -/
theorem claim_C9_witness :
    (RAGTool.search ["d"] [⟨"s", "t"⟩] (35 / 100) (.ok ([0, 0], [0, 5]))).success
      = true ∧
    (RAGTool.search ["d"] [⟨"s", "t"⟩] (35 / 100) (.ok ([0, 0], [0, 5]))).results =
      ((([0, 5] : List Int).zip (([0, 0] : List ℚ).map ragSimilarity)).filter
        (ragAccept ["d"] (35 / 100))).map (ragDeref ["d"] [⟨"s", "t"⟩]) :=
  claim_C9_amended ["d"] [⟨"s", "t"⟩] (35 / 100) [0, 0] [0, 5] (by decide)

/-- Claim C10: for every loaded price dataset, every row rendering, and
every commodity string, a row is selected as a match iff the lowercased
commodity occurs as a substring of the lowercased rendering of the entire
row (so any column's text can produce the match, independent of the
canonical `Commodity` field); when at least one row matches, the result
carries the first 5 matching rows and the total match count, and with no
matching row the lookup reports failure. -/
theorem claim_C10 (render : PriceRow → String) (rows : List PriceRow)
    (commodity : String) :
    (∀ row, row ∈ rows.filter
        (fun r => strContains (pyLower (render r)) (pyLower commodity)) ↔
      row ∈ rows ∧ strContains (pyLower (render row)) (pyLower commodity) = true) ∧
    (rows.filter (fun r => strContains (pyLower (render r)) (pyLower commodity)) ≠ [] →
      (MarketPriceTool.get_price render (some rows) commodity).success = true ∧
      (MarketPriceTool.get_price render (some rows) commodity).prices =
        (rows.filter
          (fun r => strContains (pyLower (render r)) (pyLower commodity))).take 5 ∧
      (MarketPriceTool.get_price render (some rows) commodity).records_found =
        some (rows.filter
          (fun r => strContains (pyLower (render r)) (pyLower commodity))).length) ∧
    (rows.filter (fun r => strContains (pyLower (render r)) (pyLower commodity)) = [] →
      (MarketPriceTool.get_price render (some rows) commodity).success = false) := by
  refine ⟨fun row => List.mem_filter, ?_, ?_⟩
  · intro hne
    have hlen : ¬ ((rows.filter
        (fun r => strContains (pyLower (render r)) (pyLower commodity))).length = 0) := by
      intro h0
      exact hne (List.eq_nil_of_length_eq_zero h0)
    rw [MarketPriceTool.get_price]
    rw [if_neg hlen]
    exact ⟨rfl, rfl, rfl⟩
  · intro hnil
    have hlen : (rows.filter
        (fun r => strContains (pyLower (render r)) (pyLower commodity))).length = 0 := by
      rw [hnil]
      rfl
    rw [MarketPriceTool.get_price]
    rw [if_pos hlen]

/-- Witness for C10: a row whose canonical `Commodity` field is
`"Paddy"` but whose market name contains `"Rice"` matches the commodity
`"rice"` under a rendering that includes every column, and the result
carries that row with count 1. -/
theorem claim_C10_witness :
    (let render := fun (r : PriceRow) =>
      r.Date ++ " " ++ r.Commodity ++ " " ++ r.Market ++ " " ++ r.Variety ++ " " ++
      r.Min_Price ++ " " ++ r.Max_Price
     let row : PriceRow := ⟨"2024-01-01", "Paddy", "Rice Yard", "Common", "1800", "2200"⟩
     (MarketPriceTool.get_price render (some [row]) "rice").success = true ∧
     (MarketPriceTool.get_price render (some [row]) "rice").prices = [row] ∧
     (MarketPriceTool.get_price render (some [row]) "rice").records_found = some 1) := by
  have h := claim_C10
    (fun (r : PriceRow) =>
      r.Date ++ " " ++ r.Commodity ++ " " ++ r.Market ++ " " ++ r.Variety ++ " " ++
      r.Min_Price ++ " " ++ r.Max_Price)
    [⟨"2024-01-01", "Paddy", "Rice Yard", "Common", "1800", "2200"⟩] "rice"
  have h2 := h.2.1 (by decide)
  exact ⟨h2.1, h2.2.1.trans (by decide), h2.2.2.trans (by decide)⟩

/- ===================================================================
   Helper lemmas: string nonemptiness, sorted sets, tool contributions
   =================================================================== -/

lemma isEmpty_false_of_length_pos {s : String} (h : 0 < s.length) :
    s.isEmpty = false := by
  rw [Bool.eq_false_iff]
  intro he
  rw [String.isEmpty_iff] at he
  subst he
  exact absurd h (by decide)

lemma pyJoin_length_pos (sep a : String) (l : List String) (h : 0 < a.length) :
    0 < (pyJoin sep (a :: l)).length := by
  cases l with
  | nil => simpa [pyJoin] using h
  | cons b rest =>
    rw [pyJoin, String.length_append, String.length_append]
    omega

lemma weather_summary_isEmpty (city : String) (outcome : WeatherOutcome) :
    (WeatherTool.get_weather city outcome).context_summary.isEmpty = false := by
  cases outcome with
  | ok temp humidity description wind =>
    apply isEmpty_false_of_length_pos
    simp only [WeatherTool.get_weather, String.length_append]
    have h1 : 0 < ("Live weather data for ").length := by decide
    omega
  | err msg =>
    apply isEmpty_false_of_length_pos
    simp only [WeatherTool.get_weather, String.length_append]
    have h1 : 0 < ("Weather data for ").length := by decide
    omega

lemma market_summary_isEmpty (render : PriceRow → String)
    (prices_df : Option (List PriceRow)) (commodity : String) :
    (MarketPriceTool.get_price render prices_df commodity).context_summary.isEmpty
      = false := by
  cases prices_df with
  | none =>
    have hform : (MarketPriceTool.get_price render none commodity).context_summary =
        "Market price data is currently unavailable." := rfl
    rw [hform]
    decide
  | some df =>
    rw [MarketPriceTool.get_price]
    by_cases hlen : (df.filter
        (fun r => strContains (pyLower (render r)) (pyLower commodity))).length = 0
    · rw [if_pos hlen]
      apply isEmpty_false_of_length_pos
      simp only [String.length_append]
      have h1 : 0 < ("No recent market price data found for ").length := by decide
      omega
    · rw [if_neg hlen]
      apply isEmpty_false_of_length_pos
      apply pyJoin_length_pos
      simp only [String.length_append]
      have h1 : 0 < ("Found ").length := by decide
      omega

lemma water_summary_isEmpty (region : String) :
    (WaterDataTool.get_water_info region).context_summary.isEmpty = false := by
  apply isEmpty_false_of_length_pos
  simp only [WaterDataTool.get_water_info, String.length_append]
  have h1 : 0 < ("Water & Irrigation Data for ").length := by decide
  omega

lemma pest_summary_isEmpty (crop : String) :
    (PestAdvisoryTool.get_pest_info crop).context_summary.isEmpty = false := by
  apply isEmpty_false_of_length_pos
  by_cases hp : ((common_pests.lookup (pyLower crop)).getD []).isEmpty = true
  · simp only [PestAdvisoryTool.get_pest_info, hp, Bool.not_true,
      Bool.false_eq_true, if_false, String.length_append]
    have h1 : 0 < ("No specific common pest list found for \x27").length := by decide
    omega
  · have hp2 : ((common_pests.lookup (pyLower crop)).getD []).isEmpty = false := by
      simpa using hp
    simp only [PestAdvisoryTool.get_pest_info, hp2, Bool.not_false, if_true,
      String.length_append]
    have h1 : 0 < ("Common pests for ").length := by decide
    omega

lemma pySortedSet_pairwise (l : List String) :
    List.Pairwise (fun a b => a < b) (pySortedSet l) := by
  have hs : List.Sorted (· ≤ ·) (List.insertionSort (· ≤ ·) l.dedup) :=
    List.sorted_insertionSort _ _
  have hn : (List.insertionSort (· ≤ ·) l.dedup).Nodup :=
    (List.perm_insertionSort (· ≤ ·) l.dedup).symm.nodup l.nodup_dedup
  exact (List.Pairwise.and hs hn).imp fun hab => lt_of_le_of_ne hab.1 hab.2

lemma mem_pySortedSet {a : String} {l : List String} :
    a ∈ pySortedSet l ↔ a ∈ l := by
  rw [pySortedSet, (List.perm_insertionSort _ _).mem_iff]
  exact List.mem_dedup

lemma mem_ite_singleton (a b : String) (c : Bool) :
    (a ∈ if c = true then [b] else []) ↔ (c = true ∧ a = b) := by
  cases c <;> simp

lemma process_fst_of_summary (tool_name : String) (kind : SectionKind)
    (success : Bool) (s cn : String) (hs : s.isEmpty = false) :
    (process_tool_result tool_name kind success (some s) cn).1 =
      if success = true then [tool_name] else [] := by
  rw [process_tool_result]
  cases success <;> simp [hs]

lemma process_snd_of_summary (tool_name : String) (kind : SectionKind)
    (success : Bool) (s cn : String) (hs : s.isEmpty = false) :
    (process_tool_result tool_name kind success (some s) cn).2.map Prod.fst =
      [kind] := by
  rw [process_tool_result]
  cases success <;> simp [hs]

lemma ragPart_fst (d : List (String × Json)) (inp : QueryInputs) :
    (AgriAgent.ragPart d inp).1 =
      if (ragFlagOf d &&
        (RAGTool.search inp.ragDocs inp.ragMeta (35 / 100) inp.ragOutcome).success)
        = true then ["RAG"] else [] := by
  rw [AgriAgent.ragPart]
  by_cases hf : ragFlagOf d = true
  · rw [if_pos hf, hf, Bool.true_and]
  · have hf2 : ragFlagOf d = false := by simpa using hf
    rw [if_neg hf, hf2, Bool.false_and]
    simp

lemma weatherPart_fst (d : List (String × Json)) (inp : QueryInputs) :
    (AgriAgent.weatherPart d inp).1 =
      if (flagOf d "weather" &&
        (WeatherTool.get_weather "Hyderabad" inp.weatherOutcome).success) = true
      then ["Weather"] else [] := by
  rw [AgriAgent.weatherPart]
  by_cases hf : flagOf d "weather" = true
  · rw [if_pos hf, hf, Bool.true_and]
    exact process_fst_of_summary _ _ _ _ _ (weather_summary_isEmpty _ _)
  · have hf2 : flagOf d "weather" = false := by simpa using hf
    rw [if_neg hf, hf2, Bool.false_and]
    simp

lemma marketPart_fst (d : List (String × Json)) (question : String)
    (inp : QueryInputs) :
    (AgriAgent.marketPart d question inp).1 =
      if (flagOf d "market" &&
        (MarketPriceTool.get_price inp.marketRender inp.marketDf
          (marketCommodity question)).success) = true
      then ["Market"] else [] := by
  rw [AgriAgent.marketPart]
  by_cases hf : flagOf d "market" = true
  · rw [if_pos hf, hf, Bool.true_and]
    exact process_fst_of_summary _ _ _ _ _ (market_summary_isEmpty _ _ _)
  · have hf2 : flagOf d "market" = false := by simpa using hf
    rw [if_neg hf, hf2, Bool.false_and]
    simp

lemma waterPart_fst (d : List (String × Json)) :
    (AgriAgent.waterPart d).1 =
      if flagOf d "water" = true then ["Water"] else [] := by
  rw [AgriAgent.waterPart]
  by_cases hf : flagOf d "water" = true
  · rw [if_pos hf, if_pos hf]
    have h := process_fst_of_summary "Water" SectionKind.water
      (WaterDataTool.get_water_info "Telangana").success
      (WaterDataTool.get_water_info "Telangana").context_summary
      "WATER & IRRIGATION DATA" (water_summary_isEmpty _)
    rw [h]
    rfl
  · rw [if_neg hf, if_neg hf]

lemma pestPart_fst (d : List (String × Json)) (question : String) :
    (AgriAgent.pestPart d question).1 =
      if flagOf d "pest" = true then ["Pest"] else [] := by
  rw [AgriAgent.pestPart]
  by_cases hf : flagOf d "pest" = true
  · rw [if_pos hf, if_pos hf]
    have h := process_fst_of_summary "Pest" SectionKind.pest
      (PestAdvisoryTool.get_pest_info (pestCrop question)).success
      (PestAdvisoryTool.get_pest_info (pestCrop question)).context_summary
      ("PEST ADVISORY - " ++ (pestCrop question).toUpper)
      (pest_summary_isEmpty _)
    rw [h]
    rfl
  · rw [if_neg hf, if_neg hf]

lemma queryCore_fst (question : String) (inp : QueryInputs) :
    (AgriAgent.queryCore question inp).1 =
      (AgriAgent.ragPart (decide_tools inp.parse question inp.genDecide) inp).1 ++
      (AgriAgent.weatherPart (decide_tools inp.parse question inp.genDecide) inp).1 ++
      (AgriAgent.marketPart (decide_tools inp.parse question inp.genDecide)
        question inp).1 ++
      (AgriAgent.waterPart (decide_tools inp.parse question inp.genDecide)).1 ++
      (AgriAgent.pestPart (decide_tools inp.parse question inp.genDecide)
        question).1 := rfl

lemma queryCore_snd (question : String) (inp : QueryInputs) :
    (AgriAgent.queryCore question inp).2 =
      (AgriAgent.ragPart (decide_tools inp.parse question inp.genDecide) inp).2 ++
      (AgriAgent.weatherPart (decide_tools inp.parse question inp.genDecide) inp).2 ++
      (AgriAgent.marketPart (decide_tools inp.parse question inp.genDecide)
        question inp).2 ++
      (AgriAgent.waterPart (decide_tools inp.parse question inp.genDecide)).2 ++
      (AgriAgent.pestPart (decide_tools inp.parse question inp.genDecide)
        question).2 := rfl

lemma map_pair_fst_const {α : Type} (c : SectionKind) (g : α → String)
    (l : List α) :
    (l.map fun x => (c, g x)).map Prod.fst = List.replicate l.length c := by
  induction l with
  | nil => rfl
  | cons x xs ih => simp [ih, List.replicate_succ]

lemma ragSections_kinds (docs : List String) (meta : List RagMeta) (thr : ℚ)
    (outcome : Except String (List ℚ × List Int)) :
    ∃ m, 1 ≤ m ∧
      (ragSections (RAGTool.search docs meta thr outcome)).map Prod.fst =
        List.replicate m SectionKind.rag := by
  cases outcome with
  | error e => exact ⟨1, le_refl 1, rfl⟩
  | ok pr =>
    obtain ⟨distances, indices⟩ := pr
    have hstep : RAGTool.search docs meta thr (.ok (distances, indices)) =
        match ragLoop docs meta thr (indices.zip (distances.map ragSimilarity)) with
        | .error e => { success := false, error := some e, is_relevant := false }
        | .ok (results, scores) =>
          { success := true, results := results, scores := scores,
            is_relevant := decide (0 < results.length) &&
              decide (thr ≤ pyMax scores),
            top_score := pyMax scores } := rfl
    rw [hstep]
    cases hloop : ragLoop docs meta thr (indices.zip (distances.map ragSimilarity)) with
    | error e => exact ⟨1, le_refl 1, rfl⟩
    | ok pr2 =>
      obtain ⟨results, scores⟩ := pr2
      by_cases hrel : (decide (0 < results.length) && decide (thr ≤ pyMax scores))
          = true
      · have hpos : 0 < results.length := by
          rw [Bool.and_eq_true] at hrel
          simpa using hrel.1
        have hlen : results.length = scores.length :=
          (ragLoop_ok_lengths _ results scores hloop).1
        refine ⟨results.length, hpos, ?_⟩
        have hform : ragSections
            { success := true, results := results, scores := scores,
              is_relevant := decide (0 < results.length) &&
                decide (thr ≤ pyMax scores),
              top_score := pyMax scores } =
            (results.zip scores).enum.map fun p =>
              (SectionKind.rag,
               "[RAG Knowledge Base - Context " ++ toString (p.1 + 1) ++
               " (Source: " ++ p.2.1.source ++ ", Relevance: " ++ toString p.2.2 ++
               ")]\n" ++ p.2.1.text ++ "\n") := by
          rw [ragSections]
          rw [if_pos rfl]
          rw [if_pos hrel]
        rw [hform, map_pair_fst_const]
        rw [List.enum_length, List.length_zip, ← hlen, Nat.min_self]
      · refine ⟨1, le_refl 1, ?_⟩
        have hform : ragSections
            { success := true, results := results, scores := scores,
              is_relevant := decide (0 < results.length) &&
                decide (thr ≤ pyMax scores),
              top_score := pyMax scores } =
            [(SectionKind.rag,
              "[RAG Knowledge Base]\nNo relevant information found (Score below threshold).\n")] := by
          rw [ragSections]
          rw [if_pos rfl]
          rw [if_neg hrel]
        rw [hform]
        rfl

/-- Claim C7: for every question and every input outcome, the
orchestrator returns an `AgentResult` (the embedding is a total
function); when the answer-generation step fails with the distinct
credential-exhaustion error (`ConnectionError`), the answer text is the
labeled service-unavailable message, the `tools_used` list is strictly
sorted (hence de-duplicated), unchanged from what a successful generation
would have produced, and contains exactly the evidence source names whose
invocations succeeded before the generation step. -/
theorem claim_C7 (question : String) (inp : QueryInputs) (msg : String)
    (h : inp.genAnswer = GenOutcome.connError msg) :
    (AgriAgent.query question inp).answer = "**Service Error:** " ++ msg ∧
    List.Pairwise (fun a b => a < b) (AgriAgent.query question inp).tools_used ∧
    (∀ s, (AgriAgent.query question inp).tools_used =
      (AgriAgent.query question
        { inp with genAnswer := GenOutcome.ok s }).tools_used) ∧
    ("RAG" ∈ (AgriAgent.query question inp).tools_used ↔
      ragFlagOf (decide_tools inp.parse question inp.genDecide) = true ∧
      (RAGTool.search inp.ragDocs inp.ragMeta (35 / 100) inp.ragOutcome).success
        = true) ∧
    ("Weather" ∈ (AgriAgent.query question inp).tools_used ↔
      flagOf (decide_tools inp.parse question inp.genDecide) "weather" = true ∧
      (WeatherTool.get_weather "Hyderabad" inp.weatherOutcome).success = true) ∧
    ("Market" ∈ (AgriAgent.query question inp).tools_used ↔
      flagOf (decide_tools inp.parse question inp.genDecide) "market" = true ∧
      (MarketPriceTool.get_price inp.marketRender inp.marketDf
        (marketCommodity question)).success = true) ∧
    ("Water" ∈ (AgriAgent.query question inp).tools_used ↔
      flagOf (decide_tools inp.parse question inp.genDecide) "water" = true) ∧
    ("Pest" ∈ (AgriAgent.query question inp).tools_used ↔
      flagOf (decide_tools inp.parse question inp.genDecide) "pest" = true) := by
  have hanswer : (AgriAgent.query question inp).answer =
      match inp.genAnswer with
      | .ok t => t
      | .connError m => "**Service Error:** " ++ m
      | .otherError m => "**Internal Error:** Failed to generate response. " ++ m :=
    rfl
  have htools : (AgriAgent.query question inp).tools_used =
      pySortedSet (AgriAgent.queryCore question inp).1 := rfl
  refine ⟨?_, ?_, ?_, ?_, ?_, ?_, ?_, ?_⟩
  · rw [hanswer, h]
  · rw [htools]
    exact pySortedSet_pairwise _
  · intro s
    rfl
  · rw [htools, mem_pySortedSet, queryCore_fst, ragPart_fst, weatherPart_fst,
      marketPart_fst, waterPart_fst, pestPart_fst]
    simp only [List.mem_append, mem_ite_singleton]
    simp [Bool.and_eq_true]
  · rw [htools, mem_pySortedSet, queryCore_fst, ragPart_fst, weatherPart_fst,
      marketPart_fst, waterPart_fst, pestPart_fst]
    simp only [List.mem_append, mem_ite_singleton]
    simp [Bool.and_eq_true]
  · rw [htools, mem_pySortedSet, queryCore_fst, ragPart_fst, weatherPart_fst,
      marketPart_fst, waterPart_fst, pestPart_fst]
    simp only [List.mem_append, mem_ite_singleton]
    simp [Bool.and_eq_true]
  · rw [htools, mem_pySortedSet, queryCore_fst, ragPart_fst, weatherPart_fst,
      marketPart_fst, waterPart_fst, pestPart_fst]
    simp only [List.mem_append, mem_ite_singleton]
    simp [Bool.and_eq_true]
  · rw [htools, mem_pySortedSet, queryCore_fst, ragPart_fst, weatherPart_fst,
      marketPart_fst, waterPart_fst, pestPart_fst]
    simp only [List.mem_append, mem_ite_singleton]
    simp [Bool.and_eq_true]

/-- Concrete orchestrator input used by the C7 witness: tool decisions
fall back to keywords (the decision generation raised), the index call is
down, the weather call errored, the price table is absent, and the answer
generation raises the credential-exhaustion error. -/
def c7Inp : QueryInputs :=
  { parse := fun _ => .error ()
    genDecide := .error ()
    ragDocs := []
    ragMeta := []
    ragOutcome := .error "index unavailable"
    weatherOutcome := .err "boom"
    marketRender := fun r => r.Commodity
    marketDf := none
    genAnswer := .connError "All API keys exhausted" }

/-- Witness for C7 at `c7Inp`. -/
theorem claim_C7_witness :
    (AgriAgent.query "q" c7Inp).answer =
      "**Service Error:** " ++ "All API keys exhausted" ∧
    List.Pairwise (fun a b => a < b) (AgriAgent.query "q" c7Inp).tools_used ∧
    (∀ s, (AgriAgent.query "q" c7Inp).tools_used =
      (AgriAgent.query "q" { c7Inp with genAnswer := GenOutcome.ok s }).tools_used) ∧
    ("RAG" ∈ (AgriAgent.query "q" c7Inp).tools_used ↔
      ragFlagOf (decide_tools c7Inp.parse "q" c7Inp.genDecide) = true ∧
      (RAGTool.search c7Inp.ragDocs c7Inp.ragMeta (35 / 100) c7Inp.ragOutcome).success
        = true) ∧
    ("Weather" ∈ (AgriAgent.query "q" c7Inp).tools_used ↔
      flagOf (decide_tools c7Inp.parse "q" c7Inp.genDecide) "weather" = true ∧
      (WeatherTool.get_weather "Hyderabad" c7Inp.weatherOutcome).success = true) ∧
    ("Market" ∈ (AgriAgent.query "q" c7Inp).tools_used ↔
      flagOf (decide_tools c7Inp.parse "q" c7Inp.genDecide) "market" = true ∧
      (MarketPriceTool.get_price c7Inp.marketRender c7Inp.marketDf
        (marketCommodity "q")).success = true) ∧
    ("Water" ∈ (AgriAgent.query "q" c7Inp).tools_used ↔
      flagOf (decide_tools c7Inp.parse "q" c7Inp.genDecide) "water" = true) ∧
    ("Pest" ∈ (AgriAgent.query "q" c7Inp).tools_used ↔
      flagOf (decide_tools c7Inp.parse "q" c7Inp.genDecide) "pest" = true) :=
  claim_C7 "q" c7Inp "All API keys exhausted" rfl

/-- The decision flags of spec test `C8`:
`{rag: true, weather: true, market: false, water: false, pest: true}`. -/
def c8Decisions : List (String × Json) :=
  [("rag", Json.bool true), ("weather", Json.bool true),
   ("market", Json.bool false), ("water", Json.bool false),
   ("pest", Json.bool true)]

/-- Claim C8: when the decision step yields the flags
`{knowledge_base: true, weather: true, market: false, water: false,
pest: true}` (produced here through a decision response containing a
parseable JSON object), the tagged evidence sections of the bundle are,
for every question and all tool outcomes, exactly one or more
knowledge-base sections followed by one weather section followed by one
pest section — the fixed program order, with only invoked sources
present. -/
theorem claim_C8 (question : String) (inp : QueryInputs)
    (hparse : inp.parse = fun _ => .ok c8Decisions)
    (hgen : inp.genDecide = .ok "\x7bx\x7d") :
    ∃ m, 1 ≤ m ∧
      (AgriAgent.queryCore question inp).2.map Prod.fst =
        List.replicate m SectionKind.rag ++
          [SectionKind.weather, SectionKind.pest] := by
  have hdec : decide_tools inp.parse question inp.genDecide = c8Decisions := by
    rw [hparse, hgen]
    rfl
  obtain ⟨m, hm1, hm2⟩ := ragSections_kinds inp.ragDocs inp.ragMeta (35 / 100)
    inp.ragOutcome
  refine ⟨m, hm1, ?_⟩
  rw [queryCore_snd, hdec]
  have hrag : (AgriAgent.ragPart c8Decisions inp).2 =
      ragSections (RAGTool.search inp.ragDocs inp.ragMeta (35 / 100)
        inp.ragOutcome) := by
    rw [AgriAgent.ragPart, if_pos (show ragFlagOf c8Decisions = true from rfl)]
  have hweather : (AgriAgent.weatherPart c8Decisions inp).2.map Prod.fst =
      [SectionKind.weather] := by
    rw [AgriAgent.weatherPart,
      if_pos (show flagOf c8Decisions "weather" = true from rfl)]
    exact process_snd_of_summary _ _ _ _ _ (weather_summary_isEmpty _ _)
  have hmarket : (AgriAgent.marketPart c8Decisions question inp).2 = [] := by
    rw [AgriAgent.marketPart]
    rw [if_neg (show ¬ (flagOf c8Decisions "market" = true) from by decide)]
  have hwater : (AgriAgent.waterPart c8Decisions).2 = [] := by
    rw [AgriAgent.waterPart]
    rw [if_neg (show ¬ (flagOf c8Decisions "water" = true) from by decide)]
  have hpest : (AgriAgent.pestPart c8Decisions question).2.map Prod.fst =
      [SectionKind.pest] := by
    rw [AgriAgent.pestPart,
      if_pos (show flagOf c8Decisions "pest" = true from rfl)]
    exact process_snd_of_summary _ _ _ _ _ (pest_summary_isEmpty _)
  rw [hrag, hmarket, hwater]
  rw [List.map_append, List.map_append, List.map_append, List.map_append]
  rw [hm2, hweather, hpest]
  simp

/-- Witness for C8 at a concrete input (failed index call, errored
weather call, absent price table): the section kinds are exactly
knowledge-base → weather → pest. -/
theorem claim_C8_witness :
    ∃ m, 1 ≤ m ∧
      (AgriAgent.queryCore "q"
        ⟨fun _ => .ok c8Decisions, .ok "\x7bx\x7d", [], [],
         .error "index unavailable", .err "boom", fun r => r.Commodity, none,
         .ok "a"⟩).2.map Prod.fst =
        List.replicate m SectionKind.rag ++
          [SectionKind.weather, SectionKind.pest] :=
  claim_C8 "q"
    ⟨fun _ => .ok c8Decisions, .ok "\x7bx\x7d", [], [],
     .error "index unavailable", .err "boom", fun r => r.Commodity, none,
     .ok "a"⟩ rfl rfl
